import Mathlib

/-!
# Crediball football bot — dedup / rate-limit core (shallow embedding)

Shallow embedding of the monitoring / dedup / rate-limit control loop of
`bot.py` (class `FootballTwitterBot`), together with the pieces of
`config.py` (`get_enabled_journalists`) and `ai_processor.py`
(`is_football_related`) that the verified properties depend on.

Modelling conventions:
* Python `float` reliability scores are embedded as exact rationals (`ℚ`);
  the string produced by Python's float formatting (e.g. `"95.0"`) is passed
  alongside as an uninterpreted `score_repr : String`.  The code only ever
  compares scores against the integer thresholds 90 / 70 / 50 and splices the
  rendered string into the output, so this is faithful.
* Python `len` on `str` counts Unicode code points, as does `String.length`.
* `time.time()` values are embedded as rationals supplied by the environment;
  each call site of `time.time()` in the source receives its own value.
* The `processed_tweets` Python `set` is embedded as a duplicate-free list in
  insertion order.  CPython exposes the set's contents through `list(s)` in an
  unspecified iteration order; that order is modelled by an explicit relisting
  function `iter : List String → List String` supplied to the pruning step.
* Collaborator failures are values, exactly as in the source: `ai_processor`
  catches every exception internally and returns `False` / `None`
  (ai_processor.py 91-93, 143-145), and `twitter_manager.get_user_tweets` /
  `post_tweet` catch internally and return `[]` / `False`
  (twitter_manager.py 101-103, 126-128).  Hence the modelled per-item flow is
  total, and the only reachable `error_handler.send_error` call site in the
  per-item pipeline is the publish-failure report (bot.py 172-175).
-/

namespace Crediball

set_option maxRecDepth 8000

/-- An item fetched from a tracked account (the fields of the tweet dicts used
by `bot.py`: `tweet['id']` and `tweet['text']`). -/
structure Tweet where
  id : String
  text : String
deriving DecidableEq

/-- One journalist record from `journalists.json` (config.py): the fields read
by `bot.py` plus the `enabled` flag read by `get_enabled_journalists`.
`enabled` holds the effective value of `j.get('enabled', True)`.
`reliability_score` is the exact value of the stored number and `score_repr`
its Python string rendering. -/
structure Journalist where
  username : String
  reliability_score : ℚ
  score_repr : String
  tier : String
  enabled : Bool
deriving DecidableEq

/-- The configuration values consumed by the control loop (config.py /
settings.json). -/
structure Config where
  journalists : List Journalist
  max_posts_per_day : ℕ
  min_post_interval : ℚ
  tweets_per_check : ℕ

/-- `Config.get_enabled_journalists` (config.py 207-209):
`[j for j in self.journalists if j.get('enabled', True)]`. -/
def get_enabled_journalists (cfg : Config) : List Journalist :=
  cfg.journalists.filter (fun j => j.enabled)

/-- The reliability emoji selection of `_format_final_tweet` (bot.py 185-192):
`>= 90` green, `elif >= 70` yellow, `elif >= 50` orange, else red. -/
def reliability_emoji (reliability_score : ℚ) : String :=
  if reliability_score ≥ 90 then "🟢"
  else if reliability_score ≥ 70 then "🟡"
  else if reliability_score ≥ 50 then "🟠"
  else "🔴"

/-- The attribution suffix whose length the truncation branch measures
(bot.py 202): `f"\n\nSource - @{username}\n[Reliability Score:
{reliability_emoji} - {reliability_score}%]"`. -/
def attribution_suffix (username : String) (reliability_score : ℚ)
    (score_repr : String) : String :=
  "\n\nSource - @" ++ username ++ "\n[Reliability Score: " ++
    reliability_emoji reliability_score ++ " - " ++ score_repr ++ "%]"

/-- `FootballTwitterBot._format_final_tweet` (bot.py 181-209).  The `tier`
argument is accepted and never used, as in the source.  Python slicing
`rewritten_text[:k]` with `k ≥ 0` is `String.take`; the allowance
`280 - len(suffix)` is computed in `ℤ` because Python subtraction does not
truncate at zero. -/
def format_final_tweet (rewritten_text : String) (username : String)
    (reliability_score : ℚ) (score_repr : String) (tier : String) : String :=
  let emoji := reliability_emoji reliability_score
  let formatted_tweet :=
    rewritten_text ++ "\n\n" ++ "Source - @" ++ username ++ "\n" ++
      "[Reliability Score: " ++ emoji ++ " - " ++ score_repr ++ "%]"
  if formatted_tweet.length > 280 then
    let max_rewritten_length : ℤ :=
      280 - ("\n\nSource - @" ++ username ++ "\n[Reliability Score: " ++
        emoji ++ " - " ++ score_repr ++ "%]").length
    if max_rewritten_length > 50 then
      let truncated := rewritten_text.take (max_rewritten_length - 3).toNat ++ "..."
      truncated ++ "\n\n" ++ "Source - @" ++ username ++ "\n" ++
        "[Reliability Score: " ++ emoji ++ " - " ++ score_repr ++ "%]"
    else formatted_tweet
  else formatted_tweet

/-- The four-tier symbol scale exactly as the spec states it (spec §4.2
step 3), for comparison with the code's `reliability_emoji`. -/
def spec_tier_symbol (score : ℚ) : String :=
  if 90 ≤ score then "🟢"
  else if 70 ≤ score ∧ score < 90 then "🟡"
  else if 50 ≤ score ∧ score < 70 then "🟠"
  else "🔴"

/-! ## The control loop as a state machine -/

/-- Outcome of one call of `ai_processor.is_football_related`'s underlying
Groq request: the model answered YES, answered something else, or the call
failed (API error, timeout, or exception). -/
inductive ClassifyOutcome
  | yes
  | no
  | failure
deriving DecidableEq

/-- `AIProcessor.is_football_related` (ai_processor.py 63-93): returns `True`
exactly on a successful "YES" response; a failed call — `_call_groq_api`
returning `None` (lines 184-194) or an exception (lines 91-93) — is caught
inside the method and yields `False`.  The failure is written to the log only;
`error_handler` is not referenced anywhere in `ai_processor.py`. -/
def is_football_related : ClassifyOutcome → Bool
  | .yes => true
  | .no => false
  | .failure => false

/-- The collaborator responses and clock readings consumed while one tweet is
processed: the classifier outcome, `rewrite_tweet`'s result, `post_tweet`'s
result, and the two `time.time()` readings (bot.py 223 inside `_can_post` and
bot.py 168 on success). -/
structure TweetEnv where
  classify : ClassifyOutcome
  rewrite : Option String
  publish : Bool
  t_gate : ℚ
  t_post : ℚ

/-- The mutable fields of `FootballTwitterBot` that the control loop touches:
`processed_tweets` (kept as a duplicate-free list in insertion order),
`last_post_time`, `post_count_today`, and the midnight boundary
`daily_reset_time` (as a day index). -/
structure BotState where
  processed_tweets : List String
  last_post_time : ℚ
  post_count_today : ℕ
  daily_reset_day : ℤ
deriving DecidableEq

/-- `FootballTwitterBot.__init__` (bot.py 28-34): empty seen-set,
`last_post_time = 0`, `post_count_today = 0`, and today's midnight. -/
def init_state (d0 : ℤ) : BotState :=
  { processed_tweets := [], last_post_time := 0, post_count_today := 0,
    daily_reset_day := d0 }

/-- An event delivered to the Notifier (`error_handler.send_error`).  The only
such call site reachable in the modelled per-item flow is the publish-failure
report (bot.py 172-175); the exception handlers at bot.py 72-76 and 125-129
are unreachable because every modelled collaborator returns its failures. -/
inductive Notification
  | publishFailed (username : String)
deriving DecidableEq

/-- Observations recorded while the control loop runs: which journalists were
monitored, which tweet ids the classifier was invoked on, how many times the
Publisher was called, the `time.time()` stamps of successful publishes, and
the Notifier events. -/
structure StepLog where
  visited : List String
  classified : List String
  publish_calls : ℕ
  posts : List ℚ
  notifs : List Notification
deriving DecidableEq

def StepLog.empty : StepLog :=
  { visited := [], classified := [], publish_calls := 0, posts := [], notifs := [] }

def StepLog.app (a b : StepLog) : StepLog :=
  { visited := a.visited ++ b.visited, classified := a.classified ++ b.classified,
    publish_calls := a.publish_calls + b.publish_calls, posts := a.posts ++ b.posts,
    notifs := a.notifs ++ b.notifs }

instance : Append StepLog := ⟨StepLog.app⟩

@[simp] theorem StepLog.visited_app (a b : StepLog) :
    (a ++ b).visited = a.visited ++ b.visited := rfl

@[simp] theorem StepLog.classified_app (a b : StepLog) :
    (a ++ b).classified = a.classified ++ b.classified := rfl

@[simp] theorem StepLog.publish_calls_app (a b : StepLog) :
    (a ++ b).publish_calls = a.publish_calls + b.publish_calls := rfl

@[simp] theorem StepLog.posts_app (a b : StepLog) :
    (a ++ b).posts = a.posts ++ b.posts := rfl

@[simp] theorem StepLog.notifs_app (a b : StepLog) :
    (a ++ b).notifs = a.notifs ++ b.notifs := rfl

@[simp] theorem StepLog.empty_app (b : StepLog) : StepLog.empty ++ b = b := by
  show StepLog.app StepLog.empty b = b
  simp [StepLog.app, StepLog.empty]

/-- `FootballTwitterBot._can_post` (bot.py 221-233): deny if the elapsed time
since the last post is below `min_post_interval`, deny if the daily cap is
reached, else allow.  `current_time` is the `time.time()` reading of line
223. -/
def can_post (cfg : Config) (st : BotState) (current_time : ℚ) : Bool :=
  if current_time - st.last_post_time < cfg.min_post_interval then false
  else if st.post_count_today ≥ cfg.max_posts_per_day then false
  else true

/-- `FootballTwitterBot._check_daily_reset` (bot.py 235-243): if today's
midnight is strictly later than the stored one, reset the daily count and
advance the boundary. -/
def check_daily_reset (today : ℤ) (st : BotState) : BotState :=
  if st.daily_reset_day < today then
    { st with post_count_today := 0, daily_reset_day := today }
  else st

/-- `FootballTwitterBot._is_recent_tweet` (bot.py 211-219): `return True` on
every input (and the bare `except` also returns `True`). -/
def is_recent_tweet (tweet : Tweet) : Bool := true

/-- The seen-set size cap (bot.py 120-123): after an insertion, if the set's
size exceeds 10000, it is replaced by `set(list(s)[-5000:])` — the last 5000
elements of the set's iteration-order listing, which is produced by the
relisting function `iter`. -/
def cap_processed (iter : List String → List String) (l : List String) : List String :=
  if l.length > 10000 then (iter l).drop ((iter l).length - 5000) else l

/-- `FootballTwitterBot._process_football_tweet` (bot.py 135-179): gate on
`_can_post`; on a missing rewrite abandon with a logged warning only; else
call the Publisher with the formatted text; on success set
`last_post_time = time.time()` and increment `post_count_today`; on failure
report to the Notifier and change nothing. -/
def process_football_tweet (cfg : Config) (env : TweetEnv) (tweet : Tweet)
    (j : Journalist) (st : BotState) : BotState × StepLog :=
  if ¬ can_post cfg st env.t_gate then (st, StepLog.empty)
  else
    match env.rewrite with
    | none => (st, StepLog.empty)
    | some rewritten_text =>
      let formatted_tweet :=
        format_final_tweet rewritten_text j.username j.reliability_score j.score_repr j.tier
      if env.publish then
        ({ st with last_post_time := env.t_post,
                   post_count_today := st.post_count_today + 1 },
         { StepLog.empty with publish_calls := 1, posts := [env.t_post] })
      else
        (st,
         { StepLog.empty with
             publish_calls := 1
             notifs := [Notification.publishFailed j.username] })

/-- The body of the per-tweet loop of `_monitor_journalist` (bot.py 101-123):
skip ids already in the seen-set, skip non-recent tweets, classify, process
when relevant, then unconditionally add the id and apply the size cap. -/
def process_tweet (cfg : Config) (iter : List String → List String) (j : Journalist)
    (te : Tweet × TweetEnv) (st : BotState) : BotState × StepLog :=
  let tweet := te.1
  let env := te.2
  if tweet.id ∈ st.processed_tweets then (st, StepLog.empty)
  else if ¬ is_recent_tweet tweet then (st, StepLog.empty)
  else
    let is_football := is_football_related env.classify
    let r := if is_football then process_football_tweet cfg env tweet j st
             else (st, StepLog.empty)
    ({ r.1 with processed_tweets :=
        cap_processed iter (r.1.processed_tweets ++ [tweet.id]) },
     { r.2 with classified := [tweet.id] })

def monitor_step (cfg : Config) (iter : List String → List String) (j : Journalist)
    (acc : BotState × StepLog) (te : Tweet × TweetEnv) : BotState × StepLog :=
  let r := process_tweet cfg iter j te acc.1
  (r.1, acc.2 ++ r.2)

/-- `FootballTwitterBot._monitor_journalist` (bot.py 84-129): fetch the feed
(supplied here as `feed`) and run the per-tweet loop over it; an empty feed
does nothing. -/
def monitor_journalist (cfg : Config) (iter : List String → List String)
    (j : Journalist) (feed : List (Tweet × TweetEnv)) (st : BotState) :
    BotState × StepLog :=
  feed.foldl (monitor_step cfg iter j)
    (st, { StepLog.empty with visited := [j.username] })

def cycle_step (cfg : Config) (iter : List String → List String)
    (feeds : ℕ → List (Tweet × TweetEnv)) (acc : BotState × StepLog)
    (ij : ℕ × Journalist) : BotState × StepLog :=
  let r := monitor_journalist cfg iter ij.2 (feeds ij.1) acc.1
  (r.1, acc.2 ++ r.2)

/-- `FootballTwitterBot.run_cycle` (bot.py 54-82): daily reset, early return
when the daily cap is already reached, then monitor every journalist in
`self.config.journalists`, in list order.  `feeds i` is the feed returned by
`twitter_manager.get_user_tweets` for the `i`-th configured journalist. -/
def run_cycle (cfg : Config) (iter : List String → List String) (today : ℤ)
    (feeds : ℕ → List (Tweet × TweetEnv)) (st : BotState) : BotState × StepLog :=
  let st1 := check_daily_reset today st
  if st1.post_count_today ≥ cfg.max_posts_per_day then (st1, StepLog.empty)
  else (cfg.journalists.enum).foldl (cycle_step cfg iter feeds) (st1, StepLog.empty)

/-- The inputs of one `run_cycle` invocation: the current day and the fetched
feeds. -/
structure Cycle where
  today : ℤ
  feeds : ℕ → List (Tweet × TweetEnv)

def bot_step (cfg : Config) (iter : List String → List String)
    (acc : BotState × StepLog) (c : Cycle) : BotState × StepLog :=
  let r := run_cycle cfg iter c.today c.feeds acc.1
  (r.1, acc.2 ++ r.2)

/-- A sequence of `run_cycle` invocations within one process lifetime. -/
def run_bot (cfg : Config) (iter : List String → List String) (cycles : List Cycle)
    (st : BotState) : BotState × StepLog :=
  cycles.foldl (bot_step cfg iter) (st, StepLog.empty)

/-- The states reachable within one process lifetime: the initial state,
closed under the two operations that mutate the bot's fields — the per-tweet
loop body and the daily reset.  Every intermediate state of any
`run_bot`/`run_cycle` execution is of this form, since those are folds of
`process_tweet` after one `check_daily_reset`. -/
inductive Reach (cfg : Config) (iter : List String → List String) : BotState → Prop
  | init (d0 : ℤ) : Reach cfg iter (init_state d0)
  | tweet (j : Journalist) (te : Tweet × TweetEnv) (st : BotState) :
      Reach cfg iter st → Reach cfg iter (process_tweet cfg iter j te st).1
  | reset (today : ℤ) (st : BotState) :
      Reach cfg iter st → Reach cfg iter (check_daily_reset today st)

/-! ## Bookkeeping lemmas on logs and folds -/

@[simp] theorem StepLog.app_empty (a : StepLog) : a ++ StepLog.empty = a := by
  show StepLog.app a StepLog.empty = a
  simp [StepLog.app, StepLog.empty]

theorem StepLog.app_assoc (a b c : StepLog) : a ++ b ++ c = a ++ (b ++ c) := by
  show StepLog.app (StepLog.app a b) c = StepLog.app a (StepLog.app b c)
  simp [StepLog.app, List.append_assoc, Nat.add_assoc]

/-- `_process_football_tweet` never touches the seen-set or the daily-reset
boundary. -/
theorem pft_untouched (cfg : Config) (env : TweetEnv) (tweet : Tweet)
    (j : Journalist) (st : BotState) :
    (process_football_tweet cfg env tweet j st).1.processed_tweets =
        st.processed_tweets ∧
    (process_football_tweet cfg env tweet j st).1.daily_reset_day =
        st.daily_reset_day ∧
    (process_football_tweet cfg env tweet j st).2.classified = [] ∧
    (process_football_tweet cfg env tweet j st).2.visited = [] := by
  unfold process_football_tweet
  rcases henv : env.rewrite with _ | r <;> split_ifs <;> simp_all [StepLog.empty]

/-- The state computed by the per-tweet fold does not depend on the log
accumulated so far, and the log splits off the starting log. -/
theorem monitor_foldl_shift (cfg : Config) (iter : List String → List String)
    (j : Journalist) (feed : List (Tweet × TweetEnv)) (st : BotState) (l : StepLog) :
    feed.foldl (monitor_step cfg iter j) (st, l) =
      ((feed.foldl (monitor_step cfg iter j) (st, StepLog.empty)).1,
       l ++ (feed.foldl (monitor_step cfg iter j) (st, StepLog.empty)).2) := by
  induction feed generalizing st l with
  | nil => simp
  | cons te feed ih =>
      simp only [List.foldl_cons]
      have hstep : monitor_step cfg iter j (st, l) te =
          ((process_tweet cfg iter j te st).1, l ++ (process_tweet cfg iter j te st).2) := rfl
      have hstep0 : monitor_step cfg iter j (st, StepLog.empty) te =
          ((process_tweet cfg iter j te st).1,
           StepLog.empty ++ (process_tweet cfg iter j te st).2) := rfl
      rw [hstep, hstep0, ih ((process_tweet cfg iter j te st).1) (l ++ _),
        ih ((process_tweet cfg iter j te st).1) (StepLog.empty ++ _)]
      simp [StepLog.app_assoc]

/-- Analogue of `monitor_foldl_shift` for the per-journalist fold. -/
theorem cycle_foldl_shift (cfg : Config) (iter : List String → List String)
    (feeds : ℕ → List (Tweet × TweetEnv)) (js : List (ℕ × Journalist))
    (st : BotState) (l : StepLog) :
    js.foldl (cycle_step cfg iter feeds) (st, l) =
      ((js.foldl (cycle_step cfg iter feeds) (st, StepLog.empty)).1,
       l ++ (js.foldl (cycle_step cfg iter feeds) (st, StepLog.empty)).2) := by
  induction js generalizing st l with
  | nil => simp
  | cons ij js ih =>
      simp only [List.foldl_cons]
      have hstep : cycle_step cfg iter feeds (st, l) ij =
          ((monitor_journalist cfg iter ij.2 (feeds ij.1) st).1,
           l ++ (monitor_journalist cfg iter ij.2 (feeds ij.1) st).2) := rfl
      have hstep0 : cycle_step cfg iter feeds (st, StepLog.empty) ij =
          ((monitor_journalist cfg iter ij.2 (feeds ij.1) st).1,
           StepLog.empty ++ (monitor_journalist cfg iter ij.2 (feeds ij.1) st).2) := rfl
      rw [hstep, hstep0,
        ih ((monitor_journalist cfg iter ij.2 (feeds ij.1) st).1) (l ++ _),
        ih ((monitor_journalist cfg iter ij.2 (feeds ij.1) st).1) (StepLog.empty ++ _)]
      simp [StepLog.app_assoc]

/-- Analogue of `monitor_foldl_shift` for the per-cycle fold. -/
theorem bot_foldl_shift (cfg : Config) (iter : List String → List String)
    (cycles : List Cycle) (st : BotState) (l : StepLog) :
    cycles.foldl (bot_step cfg iter) (st, l) =
      ((cycles.foldl (bot_step cfg iter) (st, StepLog.empty)).1,
       l ++ (cycles.foldl (bot_step cfg iter) (st, StepLog.empty)).2) := by
  induction cycles generalizing st l with
  | nil => simp
  | cons c cycles ih =>
      simp only [List.foldl_cons]
      have hstep : bot_step cfg iter (st, l) c =
          ((run_cycle cfg iter c.today c.feeds st).1,
           l ++ (run_cycle cfg iter c.today c.feeds st).2) := rfl
      have hstep0 : bot_step cfg iter (st, StepLog.empty) c =
          ((run_cycle cfg iter c.today c.feeds st).1,
           StepLog.empty ++ (run_cycle cfg iter c.today c.feeds st).2) := rfl
      rw [hstep, hstep0,
        ih ((run_cycle cfg iter c.today c.feeds st).1) (l ++ _),
        ih ((run_cycle cfg iter c.today c.feeds st).1) (StepLog.empty ++ _)]
      simp [StepLog.app_assoc]

section InvariantFramework

variable {cfg : Config} {iter : List String → List String}
variable (Q : BotState → StepLog → Prop)
variable (Env : Tweet × TweetEnv → Prop)

/-- `Q` is preserved by the per-tweet loop body, by the daily reset, and by
recording a visit. -/
def Preserved : Prop :=
  (∀ (j : Journalist) (te : Tweet × TweetEnv) (st : BotState) (l : StepLog),
     Env te → Q st l →
     Q (process_tweet cfg iter j te st).1 (l ++ (process_tweet cfg iter j te st).2)) ∧
  (∀ (today : ℤ) (st : BotState) (l : StepLog),
     Q st l → Q (check_daily_reset today st) l) ∧
  (∀ (j : Journalist) (st : BotState) (l : StepLog),
     Q st l → Q st (l ++ { StepLog.empty with visited := [j.username] }))

theorem preserved_monitor_foldl (hp : @Preserved cfg iter Q Env)
    (j : Journalist) (feed : List (Tweet × TweetEnv)) (henv : ∀ te ∈ feed, Env te)
    (acc : BotState × StepLog) (hq : Q acc.1 acc.2) :
    Q (feed.foldl (monitor_step cfg iter j) acc).1
      (feed.foldl (monitor_step cfg iter j) acc).2 := by
  induction feed generalizing acc with
  | nil => exact hq
  | cons te feed ih =>
      simp only [List.foldl_cons]
      exact ih (fun x hx => henv x (List.mem_cons_of_mem te hx))
        ((process_tweet cfg iter j te acc.1).1, acc.2 ++ (process_tweet cfg iter j te acc.1).2)
        (hp.1 j te acc.1 acc.2 (henv te (List.mem_cons_self te feed)) hq)

theorem preserved_monitor (hp : @Preserved cfg iter Q Env)
    (j : Journalist) (feed : List (Tweet × TweetEnv)) (henv : ∀ te ∈ feed, Env te)
    (st : BotState) (l : StepLog) (hq : Q st l) :
    Q (monitor_journalist cfg iter j feed st).1
      (l ++ (monitor_journalist cfg iter j feed st).2) := by
  have h0 : Q st (l ++ { StepLog.empty with visited := [j.username] }) := hp.2.2 j st l hq
  have h := preserved_monitor_foldl Q Env hp j feed henv
    (st, l ++ { StepLog.empty with visited := [j.username] }) h0
  rw [monitor_foldl_shift] at h
  unfold monitor_journalist
  rw [monitor_foldl_shift cfg iter j feed st { StepLog.empty with visited := [j.username] }]
  simpa [StepLog.app_assoc] using h

theorem preserved_cycle_foldl (hp : @Preserved cfg iter Q Env)
    (feeds : ℕ → List (Tweet × TweetEnv)) (henv : ∀ (i : ℕ), ∀ te ∈ feeds i, Env te)
    (js : List (ℕ × Journalist)) (acc : BotState × StepLog) (hq : Q acc.1 acc.2) :
    Q (js.foldl (cycle_step cfg iter feeds) acc).1
      (js.foldl (cycle_step cfg iter feeds) acc).2 := by
  induction js generalizing acc with
  | nil => exact hq
  | cons ij js ih =>
      simp only [List.foldl_cons]
      exact ih ((monitor_journalist cfg iter ij.2 (feeds ij.1) acc.1).1,
          acc.2 ++ (monitor_journalist cfg iter ij.2 (feeds ij.1) acc.1).2)
        (preserved_monitor Q Env hp ij.2 (feeds ij.1) (henv ij.1) acc.1 acc.2 hq)

theorem preserved_run_cycle (hp : @Preserved cfg iter Q Env)
    (today : ℤ) (feeds : ℕ → List (Tweet × TweetEnv))
    (henv : ∀ (i : ℕ), ∀ te ∈ feeds i, Env te)
    (st : BotState) (l : StepLog) (hq : Q st l) :
    Q (run_cycle cfg iter today feeds st).1
      (l ++ (run_cycle cfg iter today feeds st).2) := by
  simp only [run_cycle]
  have h1 : Q (check_daily_reset today st) l := hp.2.1 today st l hq
  split_ifs with hcap
  · simpa using h1
  · have h := preserved_cycle_foldl Q Env hp feeds henv cfg.journalists.enum
      (check_daily_reset today st, l) h1
    rw [cycle_foldl_shift] at h
    rw [cycle_foldl_shift cfg iter feeds cfg.journalists.enum
      (check_daily_reset today st) StepLog.empty]
    simpa [StepLog.app_assoc] using h

theorem preserved_run_bot (hp : @Preserved cfg iter Q Env)
    (cycles : List Cycle)
    (henv : ∀ c ∈ cycles, ∀ (i : ℕ), ∀ te ∈ c.feeds i, Env te)
    (st : BotState) (hq : Q st StepLog.empty) :
    Q (run_bot cfg iter cycles st).1 (run_bot cfg iter cycles st).2 := by
  unfold run_bot
  have key : ∀ (cs : List Cycle), (∀ c ∈ cs, ∀ (i : ℕ), ∀ te ∈ c.feeds i, Env te) →
      ∀ acc : BotState × StepLog, Q acc.1 acc.2 →
      Q (cs.foldl (bot_step cfg iter) acc).1 (cs.foldl (bot_step cfg iter) acc).2 := by
    intro cs
    induction cs with
    | nil => exact fun _ _ hq => hq
    | cons c cs ih =>
        intro hcs acc hacc
        simp only [List.foldl_cons]
        exact ih (fun x hx => hcs x (List.mem_cons_of_mem c hx))
          ((run_cycle cfg iter c.today c.feeds acc.1).1,
           acc.2 ++ (run_cycle cfg iter c.today c.feeds acc.1).2)
          (preserved_run_cycle Q Env hp c.today c.feeds
            (hcs c (List.mem_cons_self c cs)) acc.1 acc.2 hacc)
  exact key cycles henv (st, StepLog.empty) hq

end InvariantFramework

/-! ## Concrete fixtures used by witnesses and counterexamples -/

def j1 : Journalist :=
  { username := "exampleJourno", reliability_score := 95, score_repr := "95.0",
    tier := "tier1", enabled := true }

def cfg1 : Config :=
  { journalists := [j1], max_posts_per_day := 50, min_post_interval := 300,
    tweets_per_check := 10 }

def tweet1 : Tweet := { id := "t1", text := "Player X signs for Club Y" }

def env_no : TweetEnv :=
  { classify := ClassifyOutcome.no, rewrite := none, publish := false,
    t_gate := 0, t_post := 0 }

def env_fail : TweetEnv :=
  { classify := ClassifyOutcome.failure, rewrite := none, publish := false,
    t_gate := 0, t_post := 0 }

/-! ## C10 — the recency filter is vacuous -/

/-- **C10.** `_is_recent_tweet` returns `True` for every input item, so the
"too old" skip branch of the per-item loop is never taken: every fetched item
whose identifier is not in the seen-set is classified, regardless of its
retrieval timestamp. -/
theorem recency_filter_vacuous :
    (∀ t : Tweet, is_recent_tweet t = true) ∧
    (∀ (cfg : Config) (iter : List String → List String) (j : Journalist)
       (te : Tweet × TweetEnv) (st : BotState),
       te.1.id ∉ st.processed_tweets →
       (process_tweet cfg iter j te st).2.classified = [te.1.id]) := by
  refine ⟨fun t => rfl, fun cfg iter j te st h => ?_⟩
  simp [process_tweet, is_recent_tweet, h]

/-- Witness for C10 at a concrete item and the initial state. -/
theorem recency_filter_vacuous_witness :
    is_recent_tweet tweet1 = true ∧
    (process_tweet cfg1 id j1 (tweet1, env_no) (init_state 0)).2.classified = ["t1"] :=
  ⟨recency_filter_vacuous.1 tweet1,
   recency_filter_vacuous.2 cfg1 id j1 (tweet1, env_no) (init_state 0) (by decide)⟩

/-! ## C5 — the cycle ignores the enabled flag (code bug) -/

def j_disabled : Journalist :=
  { username := "quietwatch", reliability_score := 80, score_repr := "80.0",
    tier := "standard", enabled := false }

def cfg_disabled : Config :=
  { journalists := [j_disabled], max_posts_per_day := 50, min_post_interval := 300,
    tweets_per_check := 10 }

def tweet_d : Tweet := { id := "d1", text := "club news" }

def feeds_d : ℕ → List (Tweet × TweetEnv) := fun _ => [(tweet_d, env_no)]

/-- **C5.** Demonstration of the divergence: `run_cycle` iterates
`self.config.journalists` (bot.py 68), not `get_enabled_journalists`, so a
source whose `enabled` flag is false is still visited and its items are still
classified, although `get_enabled_journalists` returns the empty list for
this configuration. -/
theorem disabled_source_still_visited :
    get_enabled_journalists cfg_disabled = [] ∧
    (run_cycle cfg_disabled id 0 feeds_d (init_state 0)).2.visited = ["quietwatch"] ∧
    (run_cycle cfg_disabled id 0 feeds_d (init_state 0)).2.classified = ["d1"] := by
  refine ⟨rfl, rfl, rfl⟩

/-! ## C7 — publish atomicity -/

/-- **C7.** In the publish sub-flow, `last_post_time` and `post_count_today`
are mutated if and only if the Publisher reports success (then
`last_post_time := now` and the counter is incremented by one); a missing
rewrite abandons the attempt with no Publisher call and no counter mutation;
a Publisher failure reports an error to the Notifier and changes no
counters. -/
theorem publish_atomicity (cfg : Config) (env : TweetEnv) (tweet : Tweet)
    (j : Journalist) (st : BotState) :
    (can_post cfg st env.t_gate = false →
       process_football_tweet cfg env tweet j st = (st, StepLog.empty)) ∧
    (can_post cfg st env.t_gate = true → env.rewrite = none →
       process_football_tweet cfg env tweet j st = (st, StepLog.empty)) ∧
    (∀ rw_text, can_post cfg st env.t_gate = true → env.rewrite = some rw_text →
       env.publish = true →
       process_football_tweet cfg env tweet j st =
         ({ st with last_post_time := env.t_post,
                    post_count_today := st.post_count_today + 1 },
          { StepLog.empty with publish_calls := 1, posts := [env.t_post] })) ∧
    (∀ rw_text, can_post cfg st env.t_gate = true → env.rewrite = some rw_text →
       env.publish = false →
       process_football_tweet cfg env tweet j st =
         (st, { StepLog.empty with
                  publish_calls := 1
                  notifs := [Notification.publishFailed j.username] })) := by
  refine ⟨fun hgate => by simp [process_football_tweet, hgate],
         fun hgate hrw => by simp [process_football_tweet, hgate, hrw],
         fun rw_text hgate hrw hpub => by simp [process_football_tweet, hgate, hrw, hpub],
         fun rw_text hgate hrw hpub => by simp [process_football_tweet, hgate, hrw, hpub]⟩

/-- Witness for C7: with the gate closed (elapsed time 0 < 300) the sub-flow
returns the state unchanged with an empty log. -/
theorem publish_atomicity_witness :
    process_football_tweet cfg1 env_no tweet1 j1 (init_state 0) =
      (init_state 0, StepLog.empty) :=
  (publish_atomicity cfg1 env_no tweet1 j1 (init_state 0)).1
    (by norm_num [can_post, cfg1, env_no, init_state])

/-! ## C8 — formatting within the character limit -/

/-- The code's `elif` chain agrees with the spec's four disjoint ranges. -/
theorem spec_tier_symbol_eq_emoji (score : ℚ) :
    spec_tier_symbol score = reliability_emoji score := by
  unfold spec_tier_symbol reliability_emoji
  rcases le_or_lt 90 score with h90 | h90
  · rw [if_pos h90, if_pos h90]
  · rw [if_neg (not_le.mpr h90), if_neg (not_le.mpr h90)]
    rcases le_or_lt 70 score with h70 | h70
    · rw [if_pos ⟨h70, h90⟩, if_pos h70]
    · rw [if_neg (fun h => absurd h.1 (not_le.mpr h70)), if_neg (not_le.mpr h70)]
      rcases le_or_lt 50 score with h50 | h50
      · rw [if_pos ⟨h50, h70⟩, if_pos h50]
      · rw [if_neg (fun h => absurd h.1 (not_le.mpr h50)), if_neg (not_le.mpr h50)]

/-- **C8.** Whenever the assembled result fits in 280 characters,
`_format_final_tweet` returns exactly
`rewrittenText ++ "\n\n" ++ "Source - @" ++ username ++ "\n" ++
"[Reliability Score: " ++ emoji(score) ++ " - " ++ score ++ "%]"`, with
`emoji` given by the four-tier scale of the spec (tier 1 for score ≥ 90,
tier 2 for 70 ≤ score < 90, tier 3 for 50 ≤ score < 70, tier 4 below 50). -/
theorem formatting_within_limit (rewritten_text username : String)
    (reliability_score : ℚ) (score_repr tier : String)
    (h : (rewritten_text ++ "\n\n" ++ "Source - @" ++ username ++ "\n" ++
            "[Reliability Score: " ++ spec_tier_symbol reliability_score ++ " - " ++
            score_repr ++ "%]").length ≤ 280) :
    format_final_tweet rewritten_text username reliability_score score_repr tier =
      rewritten_text ++ "\n\n" ++ "Source - @" ++ username ++ "\n" ++
        "[Reliability Score: " ++ spec_tier_symbol reliability_score ++ " - " ++
        score_repr ++ "%]" := by
  rw [spec_tier_symbol_eq_emoji] at h ⊢
  simp only [format_final_tweet]
  rw [if_neg (by omega)]

/-- Witness for C8: the example of the spec, tier-1 symbol, length 81 ≤ 280. -/
theorem formatting_within_limit_example :
    format_final_tweet "Player X signs for Club Y" "exampleJourno" 95 "95.0" "tier1" =
      "Player X signs for Club Y\n\nSource - @exampleJourno\n[Reliability Score: 🟢 - 95.0%]" :=
  (formatting_within_limit "Player X signs for Club Y" "exampleJourno" 95 "95.0" "tier1"
      (by decide)).trans (by decide)

/-! ## C9 — truncation above the character limit -/

/-- The assembled string of bot.py 195-197 is the rewritten text followed by
the attribution suffix of bot.py 202. -/
theorem assembled_split (r u : String) (s : ℚ) (sr : String) :
    r ++ "\n\n" ++ "Source - @" ++ u ++ "\n" ++ "[Reliability Score: " ++
      reliability_emoji s ++ " - " ++ sr ++ "%]" = r ++ attribution_suffix u s sr := by
  unfold attribution_suffix
  have h1 : ("\n\nSource - @" : String) = "\n\n" ++ "Source - @" := by decide
  have h2 : ("\n[Reliability Score: " : String) = "\n" ++ "[Reliability Score: " := by decide
  rw [h1, h2]
  simp only [String.append_assoc]

theorem attribution_suffix_body (u : String) (s : ℚ) (sr : String) :
    "\n\nSource - @" ++ u ++ "\n[Reliability Score: " ++ reliability_emoji s ++
      " - " ++ sr ++ "%]" = attribution_suffix u s sr := rfl

theorem string_take_length_le (s : String) (n : ℕ) : (s.take n).length ≤ n := by
  rw [String.take_eq, String.mk_length]
  exact List.length_take_le n s.data

/-- **C9 (amended).**  When the assembled string exceeds 280 characters the
code computes the allowance `280 - length(attribution suffix)`; if the
allowance is *strictly greater than* 50 (the source condition is
`max_rewritten_length > 50`, not `≥ 50` as the claim states) the rewritten
text is cut to `allowance - 3` characters, an ellipsis is appended and the
string is reassembled, so the result fits in 280 characters and ends with the
untouched attribution suffix; if the allowance is 50 or less the over-length
string is returned unchanged. -/
theorem truncation_over_limit (rewritten_text username : String)
    (reliability_score : ℚ) (score_repr tier : String)
    (h : 280 < (rewritten_text ++
          attribution_suffix username reliability_score score_repr).length) :
    (50 < 280 - ((attribution_suffix username reliability_score score_repr).length : ℤ) →
       format_final_tweet rewritten_text username reliability_score score_repr tier =
         rewritten_text.take
             (280 - ((attribution_suffix username reliability_score score_repr).length : ℤ)
               - 3).toNat ++ "..." ++
           attribution_suffix username reliability_score score_repr ∧
       (format_final_tweet rewritten_text username reliability_score score_repr
           tier).length ≤ 280) ∧
    (280 - ((attribution_suffix username reliability_score score_repr).length : ℤ) ≤ 50 →
       format_final_tweet rewritten_text username reliability_score score_repr tier =
         rewritten_text ++ attribution_suffix username reliability_score score_repr) := by
  have hflat : 280 < (rewritten_text ++ "\n\n" ++ "Source - @" ++ username ++ "\n" ++
      "[Reliability Score: " ++ reliability_emoji reliability_score ++ " - " ++
      score_repr ++ "%]").length := by
    rw [assembled_split]; exact h
  constructor
  · intro hallow
    have heq : format_final_tweet rewritten_text username reliability_score score_repr tier =
        rewritten_text.take
            (280 - ((attribution_suffix username reliability_score score_repr).length : ℤ)
              - 3).toNat ++ "..." ++
          attribution_suffix username reliability_score score_repr := by
      simp only [format_final_tweet]
      rw [attribution_suffix_body]
      rw [if_pos hflat, if_pos hallow]
      rw [assembled_split]
    refine ⟨heq, ?_⟩
    rw [heq]
    have h3 : ("..." : String).length = 3 := rfl
    have ht := string_take_length_le rewritten_text
        (280 - ((attribution_suffix username reliability_score score_repr).length : ℤ)
          - 3).toNat
    simp only [String.length_append, h3]
    omega
  · intro hallow
    simp only [format_final_tweet]
    rw [attribution_suffix_body]
    rw [if_pos hflat, if_neg (not_lt.mpr hallow)]
    rw [assembled_split]

def c9w_rewritten : String := String.mk (List.replicate 300 'a')

/-- Witness for C9: a 300-character rewritten text with the example suffix
(length 56, allowance 224): the output is truncated to 221 characters plus an
ellipsis, ends with the intact suffix, and has length exactly 280. -/
theorem truncation_over_limit_witness :
    (format_final_tweet c9w_rewritten "exampleJourno" 95 "95.0" "tier1").length ≤ 280 ∧
    format_final_tweet c9w_rewritten "exampleJourno" 95 "95.0" "tier1" =
      c9w_rewritten.take 221 ++ "..." ++ attribution_suffix "exampleJourno" 95 "95.0" := by
  have h := truncation_over_limit c9w_rewritten "exampleJourno" 95 "95.0" "tier1" (by decide)
  have h2 := h.1 (by decide)
  exact ⟨h2.2, by rw [h2.1]; decide⟩

def c9bad_username : String := String.mk (List.replicate 187 'u')

def c9bad_rewritten : String := String.mk (List.replicate 60 'r')

/-- Counterexample to C9 as stated: with a 187-character username the
attribution suffix has length 230, so the allowance is exactly 50 — "at least
50" by the claim, which then promises truncation to within 280 characters.
The code tests `> 50`, leaves the 290-character string unchanged, and the
output exceeds 280. -/
theorem truncation_at_least_fifty_counterexample :
    280 < (c9bad_rewritten ++ attribution_suffix c9bad_username 95 "95.0").length ∧
    (50 : ℤ) ≤ 280 - ((attribution_suffix c9bad_username 95 "95.0").length : ℤ) ∧
    format_final_tweet c9bad_rewritten c9bad_username 95 "95.0" "standard" =
      c9bad_rewritten ++ attribution_suffix c9bad_username 95 "95.0" ∧
    280 < (format_final_tweet c9bad_rewritten c9bad_username 95 "95.0"
        "standard").length := by
  refine ⟨by decide, by decide, ?_, by decide⟩
  rw [show format_final_tweet c9bad_rewritten c9bad_username 95 "95.0" "standard" =
      c9bad_rewritten ++ "\n\n" ++ "Source - @" ++ c9bad_username ++ "\n" ++
        "[Reliability Score: " ++ reliability_emoji 95 ++ " - " ++ "95.0" ++ "%]"
    from by decide]
  rw [assembled_split]

/-! ## C4 — seen-set pruning does not keep the most recent entries -/

/-- Distinct identifiers for the pruning demonstration: the `i`-th inserted
identifier is a string of `i + 1` letters, so identifiers are distinguished
by their lengths. -/
def prune_demo_id (i : ℕ) : String := String.mk (List.replicate (i + 1) 'a')

/-- 10001 identifiers in insertion order: `prune_demo_id 0` first (oldest),
`prune_demo_id 10000` last (most recently inserted). -/
def prune_demo_inserted : List String := (List.range 10001).map prune_demo_id

/-- A possible iteration order of the Python set: a rotation of the
insertion order, listing the newest element first.  CPython's `list(s)` is
ordered by hash-table layout, not by insertion, so any relisting of the same
elements can occur. -/
def prune_demo_iter : List String → List String := fun l => l.drop 10000 ++ l.take 10000

/-- **C4.** Demonstration of the divergence: with 10001 identifiers inserted
in order, the size cap (bot.py 121-123) keeps the set bounded — the pruned
set has exactly 5000 ≤ 5001 elements — but it keeps the last 5000 entries of
the set's *iteration-order* listing, not the most recently added
identifiers: under the rotation iteration order (a relisting of exactly the
same elements) the most recently inserted identifier is discarded. -/
theorem seen_set_prune_discards_newest :
    List.Perm (prune_demo_iter prune_demo_inserted) prune_demo_inserted ∧
    prune_demo_inserted.length = 10001 ∧
    (cap_processed prune_demo_iter prune_demo_inserted).length = 5000 ∧
    prune_demo_id 10000 ∈ prune_demo_inserted ∧
    prune_demo_id 10000 ∉ cap_processed prune_demo_iter prune_demo_inserted := by
  have hA : prune_demo_inserted =
      (List.range 10000).map prune_demo_id ++ [prune_demo_id 10000] := by
    unfold prune_demo_inserted
    rw [List.range_succ, List.map_append]
    rfl
  have hlenA : ((List.range 10000).map prune_demo_id).length = 10000 := by simp
  have hiter : prune_demo_iter prune_demo_inserted =
      prune_demo_id 10000 :: (List.range 10000).map prune_demo_id := by
    rw [hA]
    show ((List.range 10000).map prune_demo_id ++ [prune_demo_id 10000]).drop 10000 ++
        ((List.range 10000).map prune_demo_id ++ [prune_demo_id 10000]).take 10000 = _
    rw [List.drop_left' hlenA, List.take_left' hlenA, List.singleton_append]
  have hlen : prune_demo_inserted.length = 10001 := by
    rw [hA, List.length_append, hlenA]
    rfl
  have hcap : cap_processed prune_demo_iter prune_demo_inserted =
      ((List.range 10000).map prune_demo_id).drop 5000 := by
    unfold cap_processed
    rw [if_pos (by rw [hlen]; norm_num), hiter, List.length_cons, hlenA]
    have h5 : (10000 + 1 - 5000 : ℕ) = 5000 + 1 := by norm_num
    rw [h5, List.drop_succ_cons]
  refine ⟨?_, hlen, ?_, ?_, ?_⟩
  · show List.Perm (prune_demo_inserted.drop 10000 ++ prune_demo_inserted.take 10000) _
    exact (List.perm_append_comm).trans
      (by rw [List.take_append_drop])
  · rw [hcap, List.length_drop, hlenA]
  · rw [hA]
    exact List.mem_append_right _ (List.mem_singleton_self _)
  · intro hmem
    rw [hcap] at hmem
    obtain ⟨i, hi, hfi⟩ := List.mem_map.mp (List.mem_of_mem_drop hmem)
    have hid_len : ∀ k, (prune_demo_id k).length = k + 1 := by
      intro k
      unfold prune_demo_id
      rw [String.mk_length, List.length_replicate]
    have hlen1 := hid_len i
    rw [hfi, hid_len 10000] at hlen1
    have hrange := List.mem_range.mp hi
    omega

/-! ## C2 — the daily cap invariant -/

/-- What `_can_post` returning `True` means: the minimum interval has
elapsed and the daily cap is not reached. -/
theorem can_post_true_spec (cfg : Config) (st : BotState) (t : ℚ)
    (h : can_post cfg st t = true) :
    cfg.min_post_interval ≤ t - st.last_post_time ∧
    st.post_count_today < cfg.max_posts_per_day := by
  unfold can_post at h
  split_ifs at h with h1 h2
  exact ⟨not_lt.mp h1, not_le.mp h2⟩

theorem pft_count_le (cfg : Config) (env : TweetEnv) (tweet : Tweet) (j : Journalist)
    (st : BotState) (hle : st.post_count_today ≤ cfg.max_posts_per_day) :
    (process_football_tweet cfg env tweet j st).1.post_count_today ≤
      cfg.max_posts_per_day := by
  unfold process_football_tweet
  by_cases hgate : can_post cfg st env.t_gate = true
  · rw [if_neg (not_not_intro hgate)]
    have hcp := (can_post_true_spec cfg st env.t_gate hgate).2
    cases env.rewrite
    · simpa using hle
    · by_cases hpub : env.publish = true <;> simp [hpub] <;> omega
  · rw [if_pos hgate]
    exact hle

theorem process_tweet_count_le (cfg : Config) (iter : List String → List String)
    (j : Journalist) (te : Tweet × TweetEnv) (st : BotState)
    (hle : st.post_count_today ≤ cfg.max_posts_per_day) :
    (process_tweet cfg iter j te st).1.post_count_today ≤ cfg.max_posts_per_day := by
  by_cases hmem : te.1.id ∈ st.processed_tweets
  · simp only [process_tweet, if_pos hmem]
    exact hle
  · by_cases hf : is_football_related te.2.classify = true
    · simp only [process_tweet, if_neg hmem, is_recent_tweet]
      simp only [hf]
      simpa using pft_count_le cfg te.2 te.1 j st hle
    · simp only [process_tweet, if_neg hmem, is_recent_tweet]
      simp only [Bool.not_eq_true] at hf
      simp only [hf]
      simpa using hle

theorem reach_preserved (cfg : Config) (iter : List String → List String) :
    @Preserved cfg iter (fun st _ => Reach cfg iter st) (fun _ => True) :=
  ⟨fun j te st _ _ h => Reach.tweet j te st h,
   fun today st _ h => Reach.reset today st h,
   fun _ _ _ h => h⟩

/-- **C2.** Starting from `post_count_today = 0`, at every reachable point of
any sequence of cycles the counter never exceeds `max_posts_per_day`: the
counter is incremented only behind the `_can_post` gate (which requires
`post_count_today < max_posts_per_day`), and the daily reset only sets it
back to 0.  The second conjunct ties the reachability predicate to
`run_bot`: the state after any sequence of cycles from the initial state is
reachable. -/
theorem daily_cap_invariant :
    (∀ (cfg : Config) (iter : List String → List String) (st : BotState),
       Reach cfg iter st → st.post_count_today ≤ cfg.max_posts_per_day) ∧
    (∀ (cfg : Config) (iter : List String → List String) (d0 : ℤ)
       (cycles : List Cycle),
       Reach cfg iter (run_bot cfg iter cycles (init_state d0)).1) := by
  constructor
  · intro cfg iter st h
    induction h with
    | init d0 => simp [init_state]
    | tweet j te st _ ih => exact process_tweet_count_le cfg iter j te st ih
    | reset today st _ ih =>
        unfold check_daily_reset
        split_ifs
        · simp
        · exact ih
  · intro cfg iter d0 cycles
    exact preserved_run_bot (fun st _ => Reach cfg iter st) (fun _ => True)
      (reach_preserved cfg iter) cycles (fun _ _ _ _ _ => trivial)
      (init_state d0) (Reach.init d0)

/-- Witness for C2: the bound holds at the state reached after a concrete
run, the reachability hypothesis discharged by the second conjunct. -/
theorem daily_cap_invariant_witness :
    (run_bot cfg1 id [] (init_state 0)).1.post_count_today ≤
      cfg1.max_posts_per_day :=
  daily_cap_invariant.1 cfg1 id (run_bot cfg1 id [] (init_state 0)).1
    (daily_cap_invariant.2 cfg1 id 0 [])

/-! ## C6 — fail-closed classification (not reported to the Notifier) -/

/-- **C6 (amended).**  When the classifier call fails, `is_football_related`
returns `False` (fail-closed): the item is treated as not relevant, no
publish attempt is made, no counter changes, the per-item loop continues with
the remaining items, and the identifier is still added to the seen-set
exactly once.  The failure is only written to `ai_processor`'s log; no event
is delivered to the Notifier (`error_handler.send_error` is not reachable
from a classification failure). -/
theorem fail_closed_classification (cfg : Config) (iter : List String → List String)
    (j : Journalist) (tweet : Tweet) (env : TweetEnv) (st : BotState)
    (feed : List (Tweet × TweetEnv))
    (hfail : env.classify = ClassifyOutcome.failure)
    (hnew : tweet.id ∉ st.processed_tweets)
    (hsz : st.processed_tweets.length < 10000) :
    (process_tweet cfg iter j (tweet, env) st).1 =
      { st with processed_tweets := st.processed_tweets ++ [tweet.id] } ∧
    (process_tweet cfg iter j (tweet, env) st).2 =
      { StepLog.empty with classified := [tweet.id] } ∧
    (monitor_journalist cfg iter j ((tweet, env) :: feed) st).1 =
      (monitor_journalist cfg iter j feed
        { st with processed_tweets := st.processed_tweets ++ [tweet.id] }).1 := by
  have hpt : process_tweet cfg iter j (tweet, env) st =
      ({ st with processed_tweets := st.processed_tweets ++ [tweet.id] },
       { StepLog.empty with classified := [tweet.id] }) := by
    have hcond : ¬(10000 < st.processed_tweets.length + 1) := by omega
    simp [process_tweet, if_neg hnew, is_recent_tweet, hfail, is_football_related,
      cap_processed, hcond, StepLog.empty]
  refine ⟨by rw [hpt], by rw [hpt], ?_⟩
  have hstep1 : monitor_step cfg iter j
      (st, { StepLog.empty with visited := [j.username] }) (tweet, env) =
      ({ st with processed_tweets := st.processed_tweets ++ [tweet.id] },
       { StepLog.empty with visited := [j.username] } ++
         { StepLog.empty with classified := [tweet.id] }) := by
    simp only [monitor_step, hpt]
  simp only [monitor_journalist, List.foldl_cons]
  rw [hstep1,
    monitor_foldl_shift cfg iter j feed
      { st with processed_tweets := st.processed_tweets ++ [tweet.id] }
      ({ StepLog.empty with visited := [j.username] } ++
        { StepLog.empty with classified := [tweet.id] }),
    monitor_foldl_shift cfg iter j feed
      { st with processed_tweets := st.processed_tweets ++ [tweet.id] }
      { StepLog.empty with visited := [j.username] }]

/-- Witness for C6 at a concrete failing classification from the initial
state, with an empty remaining feed. -/
theorem fail_closed_classification_witness :
    (process_tweet cfg1 id j1 (tweet1, env_fail) (init_state 0)).1 =
      { init_state 0 with
          processed_tweets := (init_state 0).processed_tweets ++ [tweet1.id] } ∧
    (process_tweet cfg1 id j1 (tweet1, env_fail) (init_state 0)).2 =
      { StepLog.empty with classified := [tweet1.id] } ∧
    (monitor_journalist cfg1 id j1 [(tweet1, env_fail)] (init_state 0)).1 =
      (monitor_journalist cfg1 id j1 []
        { init_state 0 with
            processed_tweets := (init_state 0).processed_tweets ++ [tweet1.id] }).1 :=
  fail_closed_classification cfg1 id j1 tweet1 env_fail (init_state 0) []
    rfl (by decide) (by decide)

/-- Counterexample to C6 as stated: a concrete classification failure is
treated as not relevant, the identifier is classified and added once — but no
event reaches the Notifier (the notification log is empty), contradicting
"the failure is reported to the Notifier". -/
theorem classifier_failure_not_reported_counterexample :
    env_fail.classify = ClassifyOutcome.failure ∧
    (process_tweet cfg1 id j1 (tweet1, env_fail) (init_state 0)).2.notifs = [] ∧
    (process_tweet cfg1 id j1 (tweet1, env_fail) (init_state 0)).2.publish_calls = 0 ∧
    (process_tweet cfg1 id j1 (tweet1, env_fail) (init_state 0)).1.processed_tweets
      = ["t1"] ∧
    (process_tweet cfg1 id j1 (tweet1, env_fail) (init_state 0)).2.classified = ["t1"] :=
  ⟨rfl, rfl, rfl, rfl, rfl⟩

/-! ## C1 — at-most-once classification -/

theorem process_tweet_skip (cfg : Config) (iter : List String → List String)
    (j : Journalist) (te : Tweet × TweetEnv) (st : BotState)
    (h : te.1.id ∈ st.processed_tweets) :
    process_tweet cfg iter j te st = (st, StepLog.empty) := by
  simp [process_tweet, h]

theorem process_tweet_new_processed (cfg : Config) (iter : List String → List String)
    (j : Journalist) (te : Tweet × TweetEnv) (st : BotState)
    (h : te.1.id ∉ st.processed_tweets) :
    (process_tweet cfg iter j te st).1.processed_tweets =
      cap_processed iter (st.processed_tweets ++ [te.1.id]) ∧
    (process_tweet cfg iter j te st).2.classified = [te.1.id] := by
  by_cases hf : is_football_related te.2.classify = true
  · constructor <;>
      simp [process_tweet, if_neg h, is_recent_tweet, hf,
        (pft_untouched cfg te.2 te.1 j st).1]
  · simp only [Bool.not_eq_true] at hf
    constructor <;> simp [process_tweet, if_neg h, is_recent_tweet, hf]

theorem check_daily_reset_fields (today : ℤ) (st : BotState) :
    (check_daily_reset today st).processed_tweets = st.processed_tweets ∧
    (check_daily_reset today st).last_post_time = st.last_post_time := by
  unfold check_daily_reset
  split_ifs <;> exact ⟨rfl, rfl⟩

/-- The invariant behind at-most-once processing: the classifier has been
invoked at most once on `tid`, and if it has been invoked then `tid` is in
the seen-set. -/
def OnceInv (tid : String) (st : BotState) (l : StepLog) : Prop :=
  l.classified.count tid ≤ 1 ∧ (tid ∈ l.classified → tid ∈ st.processed_tweets)

theorem once_preserved (cfg : Config) (iter : List String → List String) (tid : String)
    (hkeep : ∀ l, tid ∈ l → tid ∈ cap_processed iter l) :
    @Preserved cfg iter (OnceInv tid) (fun _ => True) := by
  refine ⟨?_, ?_, ?_⟩
  · intro j te st l _ hq
    obtain ⟨hcnt, hmem_imp⟩ := hq
    by_cases hmem : te.1.id ∈ st.processed_tweets
    · rw [process_tweet_skip cfg iter j te st hmem]
      exact ⟨by simpa using hcnt, by simpa using hmem_imp⟩
    · obtain ⟨hproc, hcls⟩ := process_tweet_new_processed cfg iter j te st hmem
      constructor
      · rw [StepLog.classified_app, hcls, List.count_append]
        by_cases heq : te.1.id = tid
        · subst heq
          have h0 : te.1.id ∉ l.classified := fun hc => hmem (hmem_imp hc)
          rw [List.count_eq_zero.mpr h0]
          simp
        · have h0 : List.count tid [te.1.id] = 0 :=
            List.count_eq_zero.mpr (by
              simp only [List.mem_singleton]
              exact fun hc => heq hc.symm)
          omega
      · intro hin
        rw [StepLog.classified_app, hcls] at hin
        rw [hproc]
        rcases List.mem_append.mp hin with hin | hin
        · exact hkeep _ (List.mem_append_left _ (hmem_imp hin))
        · rw [List.mem_singleton] at hin
          subst hin
          exact hkeep _ (List.mem_append_right _ (List.mem_singleton_self _))
  · intro today st l hq
    obtain ⟨h1, h2⟩ := hq
    refine ⟨h1, fun hin => ?_⟩
    rw [(check_daily_reset_fields today st).1]
    exact h2 hin
  · intro j st l hq
    obtain ⟨h1, h2⟩ := hq
    exact ⟨by simpa [StepLog.empty] using h1, by simpa [StepLog.empty] using h2⟩

/-- **C1.** At-most-once processing: across any sequence of cycles within one
process lifetime, as long as seen-set pruning never discards the identifier
`tid` (hypothesis `hkeep`), the classifier is invoked at most once on items
with identifier `tid` — the per-item loop skips identifiers already in the
seen-set and adds the identifier after classification regardless of relevance
or publish outcome. -/
theorem at_most_once_classification (cfg : Config) (iter : List String → List String)
    (cycles : List Cycle) (d0 : ℤ) (tid : String)
    (hkeep : ∀ l, tid ∈ l → tid ∈ cap_processed iter l) :
    ((run_bot cfg iter cycles (init_state d0)).2.classified.count tid) ≤ 1 :=
  (preserved_run_bot (OnceInv tid) (fun _ => True)
    (once_preserved cfg iter tid hkeep) cycles (fun _ _ _ _ _ => trivial)
    (init_state d0) ⟨by simp [StepLog.empty], by simp [StepLog.empty]⟩).1

/-- An iteration-order function under which pruning always keeps `"t1"`. -/
def iter_keep : List String → List String := fun _ => List.replicate 10001 "t1"

/-- Witness for C1: a cycle whose feed contains the same item twice; the
theorem applies with the pruning hypothesis discharged for `iter_keep`. -/
theorem at_most_once_classification_witness :
    ((run_bot cfg1 iter_keep
        [{ today := 0, feeds := fun _ => [(tweet1, env_no), (tweet1, env_no)] }]
        (init_state 0)).2.classified.count "t1") ≤ 1 :=
  at_most_once_classification cfg1 iter_keep
    [{ today := 0, feeds := fun _ => [(tweet1, env_no), (tweet1, env_no)] }] 0 "t1"
    (fun l h => by
      unfold cap_processed iter_keep
      split_ifs
      · rw [List.length_replicate, show (10001 - 5000 : ℕ) = 5001 by norm_num,
          List.drop_replicate, show (10001 - 5001 : ℕ) = 5000 by norm_num]
        exact List.mem_replicate.mpr ⟨by norm_num, rfl⟩
      · exact h)

/-! ## C3 — the minimum interval between successful publishes -/

/-- The invariant behind the minimum-interval property: every logged publish
time is at most `last_post_time`, and successive publish times are at least
`min_post_interval` apart. -/
def IntervalInv (cfg : Config) (st : BotState) (l : StepLog) : Prop :=
  (∀ t ∈ l.posts, t ≤ st.last_post_time) ∧
  l.posts.Pairwise (fun a b => cfg.min_post_interval ≤ b - a)

theorem pft_gate_closed (cfg : Config) (env : TweetEnv) (tweet : Tweet)
    (j : Journalist) (st : BotState) (hgate : ¬ can_post cfg st env.t_gate = true) :
    process_football_tweet cfg env tweet j st = (st, StepLog.empty) := by
  simp [process_football_tweet, hgate]

theorem pft_no_rewrite (cfg : Config) (env : TweetEnv) (tweet : Tweet)
    (j : Journalist) (st : BotState) (hrw : env.rewrite = none) :
    process_football_tweet cfg env tweet j st = (st, StepLog.empty) := by
  simp [process_football_tweet, hrw]

theorem pft_publish_ok (cfg : Config) (env : TweetEnv) (tweet : Tweet)
    (j : Journalist) (st : BotState) (rw_text : String)
    (hgate : can_post cfg st env.t_gate = true) (hrw : env.rewrite = some rw_text)
    (hpub : env.publish = true) :
    process_football_tweet cfg env tweet j st =
      ({ st with last_post_time := env.t_post,
                 post_count_today := st.post_count_today + 1 },
       { StepLog.empty with publish_calls := 1, posts := [env.t_post] }) := by
  simp [process_football_tweet, hgate, hrw, hpub]

theorem pft_publish_fail (cfg : Config) (env : TweetEnv) (tweet : Tweet)
    (j : Journalist) (st : BotState) (rw_text : String)
    (hgate : can_post cfg st env.t_gate = true) (hrw : env.rewrite = some rw_text)
    (hpub : env.publish = false) :
    process_football_tweet cfg env tweet j st =
      (st, { StepLog.empty with
               publish_calls := 1
               notifs := [Notification.publishFailed j.username] }) := by
  simp [process_football_tweet, hgate, hrw, hpub]

theorem interval_pft (cfg : Config) (env : TweetEnv) (tweet : Tweet) (j : Journalist)
    (st : BotState) (hmin : 0 ≤ cfg.min_post_interval) (hte : env.t_gate ≤ env.t_post)
    (P : List ℚ)
    (h1 : ∀ t ∈ P, t ≤ st.last_post_time)
    (h2 : P.Pairwise (fun a b => cfg.min_post_interval ≤ b - a)) :
    (∀ t ∈ P ++ (process_football_tweet cfg env tweet j st).2.posts,
       t ≤ (process_football_tweet cfg env tweet j st).1.last_post_time) ∧
    (P ++ (process_football_tweet cfg env tweet j st).2.posts).Pairwise
      (fun a b => cfg.min_post_interval ≤ b - a) := by
  by_cases hgate : can_post cfg st env.t_gate = true
  · have hint := (can_post_true_spec cfg st env.t_gate hgate).1
    have hlast : st.last_post_time ≤ env.t_gate := by linarith
    rcases henv : env.rewrite with _ | rw_text
    · rw [pft_no_rewrite cfg env tweet j st henv]
      exact ⟨by simpa [StepLog.empty] using h1, by simpa [StepLog.empty] using h2⟩
    · by_cases hpub : env.publish = true
      · rw [pft_publish_ok cfg env tweet j st rw_text hgate henv hpub]
        dsimp only [StepLog.empty]
        constructor
        · intro t ht
          rcases List.mem_append.mp ht with ht | ht
          · have := h1 t ht
            linarith
          · rw [List.mem_singleton] at ht
            subst ht
            exact le_refl _
        · rw [List.pairwise_append]
          refine ⟨h2, by simp, ?_⟩
          intro a ha b hb
          rw [List.mem_singleton] at hb
          subst hb
          have := h1 a ha
          linarith
      · simp only [Bool.not_eq_true] at hpub
        rw [pft_publish_fail cfg env tweet j st rw_text hgate henv hpub]
        exact ⟨by simpa [StepLog.empty] using h1, by simpa [StepLog.empty] using h2⟩
  · rw [pft_gate_closed cfg env tweet j st hgate]
    exact ⟨by simpa [StepLog.empty] using h1, by simpa [StepLog.empty] using h2⟩

theorem interval_preserved (cfg : Config) (iter : List String → List String)
    (hmin : 0 ≤ cfg.min_post_interval) :
    @Preserved cfg iter (IntervalInv cfg) (fun te => te.2.t_gate ≤ te.2.t_post) := by
  refine ⟨?_, ?_, ?_⟩
  · intro j te st l hte hq
    obtain ⟨h1, h2⟩ := hq
    by_cases hmem : te.1.id ∈ st.processed_tweets
    · rw [process_tweet_skip cfg iter j te st hmem]
      exact ⟨by simpa using h1, by simpa using h2⟩
    · by_cases hf : is_football_related te.2.classify = true
      · have hlast : (process_tweet cfg iter j te st).1.last_post_time =
            (process_football_tweet cfg te.2 te.1 j st).1.last_post_time := by
          simp [process_tweet, if_neg hmem, is_recent_tweet, hf]
        have hposts : (process_tweet cfg iter j te st).2.posts =
            (process_football_tweet cfg te.2 te.1 j st).2.posts := by
          simp [process_tweet, if_neg hmem, is_recent_tweet, hf]
        obtain ⟨g1, g2⟩ := interval_pft cfg te.2 te.1 j st hmin hte l.posts h1 h2
        refine ⟨?_, ?_⟩
        · intro t ht
          rw [StepLog.posts_app, hposts] at ht
          rw [hlast]
          exact g1 t ht
        · rw [StepLog.posts_app, hposts]
          exact g2
      · simp only [Bool.not_eq_true] at hf
        have hlast : (process_tweet cfg iter j te st).1.last_post_time =
            st.last_post_time := by
          simp [process_tweet, if_neg hmem, is_recent_tweet, hf]
        have hposts : (process_tweet cfg iter j te st).2.posts = [] := by
          simp [process_tweet, if_neg hmem, is_recent_tweet, hf, StepLog.empty]
        refine ⟨?_, ?_⟩
        · intro t ht
          rw [StepLog.posts_app, hposts, List.append_nil] at ht
          rw [hlast]
          exact h1 t ht
        · rw [StepLog.posts_app, hposts, List.append_nil]
          exact h2
  · intro today st l hq
    obtain ⟨h1, h2⟩ := hq
    refine ⟨fun t ht => ?_, h2⟩
    rw [(check_daily_reset_fields today st).2]
    exact h1 t ht
  · intro j st l hq
    obtain ⟨h1, h2⟩ := hq
    constructor
    · intro t ht
      exact h1 t (by simpa [StepLog.empty] using ht)
    · simpa [StepLog.empty] using h2

/-- **C3.**  For any two successful publishes at times `t1 < t2` within one
process lifetime (with a non-negative configured interval, and each publish
timestamp no earlier than the gate check that admitted it — `time.time()` is
monotone between the two reads), `t2 - t1 ≥ min_post_interval`: the gate
checks the elapsed time before each publish and `last_post_time` is set to
the current time on each success. -/
theorem min_interval_between_publishes (cfg : Config)
    (iter : List String → List String) (cycles : List Cycle) (d0 : ℤ)
    (hmin : 0 ≤ cfg.min_post_interval)
    (henv : ∀ c ∈ cycles, ∀ (i : ℕ), ∀ te ∈ c.feeds i, te.2.t_gate ≤ te.2.t_post)
    (t1 t2 : ℚ)
    (h1 : t1 ∈ (run_bot cfg iter cycles (init_state d0)).2.posts)
    (h2 : t2 ∈ (run_bot cfg iter cycles (init_state d0)).2.posts)
    (hlt : t1 < t2) :
    cfg.min_post_interval ≤ t2 - t1 := by
  have hinv := preserved_run_bot (IntervalInv cfg)
    (fun te => te.2.t_gate ≤ te.2.t_post)
    (interval_preserved cfg iter hmin) cycles henv (init_state d0)
    ⟨by simp [StepLog.empty], by simp [StepLog.empty]⟩
  have hpw := hinv.2
  have hsym : Symmetric (fun a b : ℚ =>
      cfg.min_post_interval ≤ b - a ∨ cfg.min_post_interval ≤ a - b) :=
    fun a b h => h.symm
  have hor := (hpw.imp (fun h => Or.inl h)).forall hsym h1 h2 (ne_of_lt hlt)
  rcases hor with hcase | hcase
  · exact hcase
  · linarith

def env_pub1 : TweetEnv :=
  { classify := ClassifyOutcome.yes, rewrite := some "Big signing confirmed",
    publish := true, t_gate := 1000, t_post := 1000 }

def env_pub2 : TweetEnv :=
  { classify := ClassifyOutcome.yes, rewrite := some "Deal done",
    publish := true, t_gate := 1300, t_post := 1305 }

def tweet_p1 : Tweet := { id := "p1", text := "news one" }

def tweet_p2 : Tweet := { id := "p2", text := "news two" }

def cycle_two : Cycle :=
  { today := 0, feeds := fun _ => [(tweet_p1, env_pub1), (tweet_p2, env_pub2)] }

theorem cycle_two_posts :
    (run_bot cfg1 id [cycle_two] (init_state 0)).2.posts = [1000, 1305] := by
  norm_num [run_bot, bot_step, run_cycle, cycle_step, monitor_journalist,
    monitor_step, process_tweet, process_football_tweet, can_post,
    check_daily_reset, cap_processed, is_recent_tweet, is_football_related,
    cfg1, j1, cycle_two, env_pub1, env_pub2, tweet_p1, tweet_p2, init_state,
    StepLog.empty, StepLog.app, List.enum, List.enumFrom,
    show ("p2" : String) ≠ "p1" from by decide]

/-- Witness for C3: a concrete run with two successful publishes at times
1000 and 1305 under a 300-second minimum interval; the theorem yields
300 ≤ 1305 - 1000. -/
theorem min_interval_between_publishes_witness :
    cfg1.min_post_interval ≤ (1305 : ℚ) - 1000 :=
  min_interval_between_publishes cfg1 id [cycle_two] 0
    (by norm_num [cfg1])
    (by
      intro c hc i te hte
      rw [List.mem_singleton] at hc
      subst hc
      simp only [cycle_two, List.mem_cons, List.mem_singleton,
        List.not_mem_nil, or_false] at hte
      rcases hte with rfl | rfl
      · norm_num [env_pub1]
      · norm_num [env_pub2])
    1000 1305
    (by rw [cycle_two_posts]; simp)
    (by rw [cycle_two_posts]; simp)
    (by norm_num)

end Crediball
